import Mathlib

/-!
Shallow embedding of the KaliPiMax application-state core:
`core/state.py` (AppState, alerts, confirmation handshake, mode switching),
`core/payload.py` (PayloadRunner and its worker thread), and the exit
behaviour of the command-line entry point `cli.py`.

Wall-clock time (`time.time()`) is passed explicitly as a `Nat` parameter
to every operation that reads the clock.  The payload worker's interaction
with the OS (Popen / communicate) is represented by explicit parameters:
the spawn either yields a pid or raises, and the wait either returns an
exit code with captured stderr or expires.  Lifecycle hooks
(`on_exit` / `on_enter`) and the `on_complete` callback are effects; the
embedding returns the list of hook invocations, and records the value of
the process handle that the completion callback observes.
-/

namespace KaliPiMax

/-- `PayloadStatus` enum from `core/state.py`. -/
inductive PayloadStatus where
  | idle
  | running
  | success
  | failed
  | timeout
  | cancelled
  deriving DecidableEq, Repr

/-- `AlertLevel` enum from `core/state.py`. -/
inductive AlertLevel where
  | info
  | ok
  | warning
  | error
  | critical
  deriving DecidableEq, Repr

/-- `Alert` dataclass: a single alert entry. -/
structure Alert where
  timestamp : Nat
  message : String
  level : AlertLevel
  deriving DecidableEq, Repr

/-- `PayloadInfo` dataclass: descriptor of the running payload. -/
structure PayloadInfo where
  name : String
  command : String
  start_time : Nat
  pid : Option Nat
  deriving DecidableEq, Repr

/-- A registered mode; only its name is relevant to the state core
(`mode.name` is what `set_mode_by_name` inspects). -/
structure Mode where
  name : String
  deriving DecidableEq, Repr

/-- `ALERT_MAX_COUNT` from `config.py`: maximum alerts to keep. -/
def ALERT_MAX_COUNT : Nat := 50

/-- `PAYLOAD_TIMEOUT` from `config.py`: default payload timeout in seconds. -/
def PAYLOAD_TIMEOUT : Nat := 300

/-- The mutable fields of `AppState` (`core/state.py`).  The lock itself and
the LCD handle are omitted: the lock serialises the operations modelled here
and the LCD reference never feeds back into them. -/
structure AppState where
  running : Bool
  backlight_on : Bool
  render_needed : Bool
  last_activity : Nat
  current_mode_index : Nat
  modes : List Mode
  payload_status : PayloadStatus
  current_payload : Option PayloadInfo
  alerts : List Alert
  pending_confirm : Option String
  confirm_expires : Nat
  deriving DecidableEq, Repr

/-- `AppState.__init__`. -/
def AppState.init (now : Nat) : AppState :=
  { running := true
    backlight_on := true
    render_needed := true
    last_activity := now
    current_mode_index := 0
    modes := []
    payload_status := PayloadStatus.idle
    current_payload := none
    alerts := []
    pending_confirm := none
    confirm_expires := 0 }

/-- The `backlight_on` property setter: also raises the render flag. -/
def set_backlight_on (s : AppState) (value : Bool) : AppState :=
  { s with backlight_on := value, render_needed := true }

/-- The `payload_status` property setter: also raises the render flag. -/
def set_payload_status (s : AppState) (value : PayloadStatus) : AppState :=
  { s with payload_status := value, render_needed := true }

/-- `AppState.reset_activity`. -/
def reset_activity (s : AppState) (now : Nat) : AppState :=
  { s with last_activity := now }

/-- `AppState.get_current_mode`: the active mode instance, if any. -/
def get_current_mode (s : AppState) : Option Mode :=
  if s.modes ≠ [] ∧ s.current_mode_index < s.modes.length then
    s.modes.get? s.current_mode_index
  else none

/-- A lifecycle-hook invocation performed after the lock is released. -/
inductive HookCall where
  | on_exit (m : Mode)
  | on_enter (m : Mode)
  deriving DecidableEq, Repr

/-- `AppState.change_mode(delta)`: relative mode change with wraparound.
Returns the new state together with the hook calls made (old mode's
`on_exit`, then new mode's `on_enter`). -/
def change_mode (s : AppState) (delta : Int) (now : Nat) : AppState × List HookCall :=
  if s.modes.isEmpty then (s, [])
  else
    let n := s.modes.length
    let old_mode := if s.current_mode_index < n then s.modes.get? s.current_mode_index else none
    let newIdx := (((s.current_mode_index : Int) + delta).emod (n : Int)).toNat
    let new_mode := if newIdx < n then s.modes.get? newIdx else none
    ({ s with current_mode_index := newIdx, render_needed := true, last_activity := now },
     old_mode.toList.map HookCall.on_exit ++ new_mode.toList.map HookCall.on_enter)

/-- Python `str.upper()` restricted to ASCII: uppercase every character. -/
def pyUpper (s : String) : String :=
  ⟨s.data.map Char.toUpper⟩

/-- `AppState.set_mode_by_name(name)`: switch to the first mode whose name
matches case-insensitively.  Returns (state, hook calls, found). -/
def set_mode_by_name (s : AppState) (name : String) : AppState × List HookCall × Bool :=
  match s.modes.findIdx? (fun m => pyUpper m.name = pyUpper name) with
  | none => (s, [], false)
  | some i =>
    if s.current_mode_index ≠ i then
      let old_mode := if s.current_mode_index < s.modes.length then s.modes.get? s.current_mode_index else none
      let new_mode := s.modes.get? i
      ({ s with current_mode_index := i, render_needed := true },
       old_mode.toList.map HookCall.on_exit ++ new_mode.toList.map HookCall.on_enter,
       true)
    else (s, [], true)

/-- Appending to a `deque(maxlen = cap)`: append at the tail, then drop
from the front anything beyond the capacity. -/
def dequeAppend {α : Type} (cap : Nat) (xs : List α) (a : α) : List α :=
  (xs ++ [a]).drop ((xs ++ [a]).length - cap)

/-- `AppState.add_alert(message, level)`.  The console print is an external
side effect and does not touch the state. -/
def add_alert (s : AppState) (now : Nat) (message : String) (level : AlertLevel) : AppState :=
  { s with
    alerts := dequeAppend ALERT_MAX_COUNT s.alerts ⟨now, message, level⟩
    render_needed := true }

/-- `AppState.clear_alerts`. -/
def clear_alerts (s : AppState) : AppState :=
  { s with alerts := [], render_needed := true }

/-- `AppState.start_payload(name, command, pid)`. -/
def start_payload (s : AppState) (name command : String) (now : Nat)
    (pid : Option Nat) : AppState :=
  { s with
    current_payload := some ⟨name, command, now, pid⟩
    payload_status := PayloadStatus.running
    render_needed := true }

/-- `AppState.end_payload(status)`. -/
def end_payload (s : AppState) (status : PayloadStatus) : AppState :=
  { s with
    current_payload := none
    payload_status := status
    render_needed := true }

/-- `AppState.is_payload_running`. -/
def is_payload_running (s : AppState) : Bool :=
  s.payload_status = PayloadStatus.running

/-- `AppState.request_confirm(action_name, timeout)`: two-phase confirmation
for destructive actions.  Returns (state, confirmed). -/
def request_confirm (s : AppState) (action_name : String) (timeout now : Nat) :
    AppState × Bool :=
  if s.pending_confirm = some action_name ∧ now < s.confirm_expires then
    ({ s with pending_confirm := none }, true)
  else
    ({ s with pending_confirm := some action_name, confirm_expires := now + timeout },
     false)

/-- `AppState.cancel_confirm`. -/
def cancel_confirm (s : AppState) : AppState :=
  { s with pending_confirm := none }

/-- The mutable fields of `PayloadRunner` (`core/payload.py`). -/
structure PayloadRunner where
  current_process : Option Nat
  cancel_requested : Bool
  deriving DecidableEq, Repr

/-- The guard phase of `PayloadRunner.run`: if a payload is already running,
emit one WARNING alert and return without spawning; otherwise reset the
cancellation flag and spawn the worker.  The returned `Bool` records whether
a worker thread was started. -/
def PayloadRunner.run (r : PayloadRunner) (s : AppState) (now : Nat) :
    PayloadRunner × AppState × Bool :=
  if is_payload_running s then
    (r, add_alert s now "Payload already running" AlertLevel.warning, false)
  else
    ({ r with cancel_requested := false }, s, true)

/-- `PayloadRunner.cancel`: no-op unless a payload is running; otherwise set
the cancellation flag (the forced kill is an OS effect). -/
def PayloadRunner.cancel (r : PayloadRunner) (s : AppState) : PayloadRunner :=
  if is_payload_running s then { r with cancel_requested := true } else r

/-- Outcome of `subprocess.Popen`: either a process (pid) or an exception. -/
inductive SpawnResult where
  | ok (pid : Nat)
  | raised (msg : String)
  deriving DecidableEq, Repr

/-- Outcome of `communicate(timeout=...)`: natural exit with return code and
captured stderr, or `TimeoutExpired`. -/
inductive WaitResult where
  | exited (returncode : Int) (stderr : String)
  | timedOut
  deriving DecidableEq, Repr

/-- Result of one worker-thread execution.  `handleAtCallback` is the value
of `_current_process` observed by the `on_complete` callback. -/
structure WorkerOutcome where
  app : AppState
  runner : PayloadRunner
  handleAtCallback : Option Nat
  deriving DecidableEq, Repr

/-- The `finally` block of the worker: clear the process handle, then invoke
`on_complete`; the callback observes the handle value after the clear. -/
def workerFinally (r : PayloadRunner) (s : AppState) : WorkerOutcome :=
  let r2 := { r with current_process := none }
  { app := s, runner := r2, handleAtCallback := r2.current_process }

/-- The body of the worker thread spawned by `PayloadRunner.run` (the nested
`runner()` in `core/payload.py`).  `cancelFlag` is the value of
`_cancel_requested` at the moment the worker interprets the completion. -/
def runnerWorker (r : PayloadRunner) (s : AppState) (command description : String)
    (timeout now : Nat) (spawn : SpawnResult) (wait : WaitResult)
    (cancelFlag : Bool) : WorkerOutcome :=
  let s1 := start_payload s description command now none
  let s2 := add_alert s1 now ("Starting: " ++ description) AlertLevel.info
  match spawn with
  | SpawnResult.raised msg =>
    let s3 := add_alert s2 now ("Error: " ++ msg.take 40) AlertLevel.error
    workerFinally r (end_payload s3 PayloadStatus.failed)
  | SpawnResult.ok pid =>
    let r1 := { r with current_process := some pid }
    match wait with
    | WaitResult.timedOut =>
      let s3 := add_alert s2 now ("⏱ " ++ description ++ " timeout (" ++ toString timeout ++ "s)")
        AlertLevel.warning
      workerFinally r1 (end_payload s3 PayloadStatus.timeout)
    | WaitResult.exited rc stderr =>
      if cancelFlag then
        let s3 := add_alert s2 now ("Cancelled: " ++ description) AlertLevel.warning
        workerFinally r1 (end_payload s3 PayloadStatus.cancelled)
      else if rc = 0 then
        let s3 := add_alert s2 now ("✓ " ++ description ++ " complete") AlertLevel.ok
        workerFinally r1 (end_payload s3 PayloadStatus.success)
      else
        let error_msg := if stderr ≠ "" then stderr.take 50 else "Unknown error"
        let s3 := add_alert s2 now ("✗ " ++ description ++ ": " ++ error_msg) AlertLevel.error
        workerFinally r1 (end_payload s3 PayloadStatus.failed)

/-- Iterated `add_alert`, one call per (message, level) pair. -/
def addAlerts (s : AppState) (now : Nat) (msgs : List (String × AlertLevel)) : AppState :=
  msgs.foldl (fun acc p => add_alert acc now p.1 p.2) s

/-- The mode names registered by `cli.py` (`MODE_CLASSES` keys). -/
def MODE_CLASSES : List String :=
  ["system", "nmap", "wifi", "responder", "mitm", "shells", "usb", "profiles", "tools"]

/-- Python `str.lower()` restricted to ASCII: lowercase every character. -/
def pyLower (s : String) : String :=
  ⟨s.data.map Char.toLower⟩

/-- Python `str.isdigit` restricted to ASCII: nonempty and all digits. -/
def isdigit (t : String) : Bool :=
  !t.data.isEmpty && t.data.all Char.isDigit

/-- Observable exit of `cli.main`: the process exit code, and whether the
usage text was printed. -/
structure CliExit where
  code : Nat
  usagePrinted : Bool
  deriving DecidableEq, Repr

/-- Exit behaviour of `cli.main` (`cli.py`).  `usage()` prints the usage text
and calls `sys.exit(0)`; invalid mode names route through `usage()`, while a
non-numeric action argument exits 1 directly. -/
def cliMain (args : List String) : CliExit :=
  match args with
  | [] => ⟨0, false⟩
  | a0 :: rest =>
    if a0 = "-h" || a0 = "--help" || a0 = "help" then ⟨0, true⟩
    else if !(MODE_CLASSES.contains (pyLower a0)) then ⟨0, true⟩
    else
      match rest with
      | [] => ⟨0, false⟩
      | a1 :: _ => if isdigit a1 then ⟨0, false⟩ else ⟨1, false⟩

/-! ## Helper lemmas -/

/-- A `deque(maxlen = cap)` append with positive capacity always keeps the
new element at the tail. -/
theorem dequeAppend_getLast? {α : Type} (cap : Nat) (hcap : 1 ≤ cap) (xs : List α) (a : α) :
    (dequeAppend cap xs a).getLast? = some a := by
  unfold dequeAppend
  rw [List.drop_append_of_le_length (by simp; omega)]
  simp [List.getLast?_concat]

/-- Concrete states used to instantiate hypotheses of the theorems below. -/
def sampleRunner : PayloadRunner := ⟨none, false⟩

def sampleRunning : AppState :=
  set_payload_status (AppState.init 0) PayloadStatus.running

/-! ## Claims -/

/-- Claim C1: while a payload is RUNNING, `PayloadRunner.run` spawns no
worker, leaves the runner, the payload descriptor and the status unchanged,
and adds exactly one WARNING alert ("Payload already running"). -/
theorem run_single_flight (r : PayloadRunner) (s : AppState) (now : Nat)
    (h : is_payload_running s = true) :
    (PayloadRunner.run r s now).2.2 = false ∧
    (PayloadRunner.run r s now).1 = r ∧
    (PayloadRunner.run r s now).2.1.payload_status = s.payload_status ∧
    (PayloadRunner.run r s now).2.1.current_payload = s.current_payload ∧
    (PayloadRunner.run r s now).2.1.alerts =
      dequeAppend ALERT_MAX_COUNT s.alerts
        ⟨now, "Payload already running", AlertLevel.warning⟩ := by
  simp [PayloadRunner.run, h, add_alert]

/-- Witness for C1 at a concrete running state. -/
theorem run_single_flight_witness :
    is_payload_running sampleRunning = true ∧
    (PayloadRunner.run sampleRunner sampleRunning 5).2.2 = false :=
  ⟨rfl, (run_single_flight sampleRunner sampleRunning 5 rfl).1⟩

/-- Claim C2: whatever the spawn result, wait result and cancellation flag,
after the worker body runs the payload is no longer reported running and the
status is one of the four terminal values. -/
theorem worker_terminal (r : PayloadRunner) (s : AppState) (command description : String)
    (timeout now : Nat) (spawn : SpawnResult) (wait : WaitResult) (cancelFlag : Bool) :
    is_payload_running (runnerWorker r s command description timeout now spawn wait cancelFlag).app = false ∧
    ((runnerWorker r s command description timeout now spawn wait cancelFlag).app.payload_status = PayloadStatus.success ∨
     (runnerWorker r s command description timeout now spawn wait cancelFlag).app.payload_status = PayloadStatus.failed ∨
     (runnerWorker r s command description timeout now spawn wait cancelFlag).app.payload_status = PayloadStatus.timeout ∨
     (runnerWorker r s command description timeout now spawn wait cancelFlag).app.payload_status = PayloadStatus.cancelled) := by
  cases spawn <;> cases wait <;>
    simp only [runnerWorker, workerFinally, end_payload, is_payload_running] <;>
    (try split_ifs) <;> simp

/-- Claim C3: if `cancel()` is invoked while the payload is running, the
cancellation flag is set, and a worker that interprets a natural exit (any
return code, including 0) under that flag records CANCELLED and a WARNING
alert at the tail of the log; the flag takes priority over the exit code. -/
theorem cancel_precedence (r : PayloadRunner) (srun s : AppState)
    (command description : String) (timeout now : Nat) (pid : Nat) (rc : Int)
    (stderr : String) (h : is_payload_running srun = true) :
    (PayloadRunner.cancel r srun).cancel_requested = true ∧
    (runnerWorker (PayloadRunner.cancel r srun) s command description timeout now
        (SpawnResult.ok pid) (WaitResult.exited rc stderr)
        (PayloadRunner.cancel r srun).cancel_requested).app.payload_status =
      PayloadStatus.cancelled ∧
    (runnerWorker (PayloadRunner.cancel r srun) s command description timeout now
        (SpawnResult.ok pid) (WaitResult.exited rc stderr)
        (PayloadRunner.cancel r srun).cancel_requested).app.alerts.getLast? =
      some ⟨now, "Cancelled: " ++ description, AlertLevel.warning⟩ := by
  have hc : (PayloadRunner.cancel r srun).cancel_requested = true := by
    simp [PayloadRunner.cancel, h]
  refine ⟨hc, ?_, ?_⟩ <;>
    simp [runnerWorker, hc, workerFinally, end_payload, add_alert,
      dequeAppend_getLast? ALERT_MAX_COUNT (by decide)]

/-- Witness for C3 at a concrete running state and exit code 0. -/
theorem cancel_precedence_witness :
    is_payload_running sampleRunning = true ∧
    (runnerWorker (PayloadRunner.cancel sampleRunner sampleRunning)
        (AppState.init 0) "sleep 10" "demo" 300 7
        (SpawnResult.ok 42) (WaitResult.exited 0 "")
        (PayloadRunner.cancel sampleRunner sampleRunning).cancel_requested).app.payload_status =
      PayloadStatus.cancelled :=
  ⟨rfl, (cancel_precedence sampleRunner sampleRunning (AppState.init 0)
      "sleep 10" "demo" 300 7 42 0 "" rfl).2.1⟩

/-- Claim C8: in every terminal branch of the worker the process handle is
cleared, and the `on_complete` callback observes the cleared (None) handle. -/
theorem worker_clears_handle (r : PayloadRunner) (s : AppState)
    (command description : String) (timeout now : Nat) (spawn : SpawnResult)
    (wait : WaitResult) (cancelFlag : Bool) :
    (runnerWorker r s command description timeout now spawn wait cancelFlag).runner.current_process = none ∧
    (runnerWorker r s command description timeout now spawn wait cancelFlag).handleAtCallback = none := by
  cases spawn <;> cases wait <;>
    simp only [runnerWorker, workerFinally] <;> (try split_ifs) <;> simp

/-- Claim C4: with no unexpired ticket for action `a`, `request_confirm`
returns not-confirmed and arms a ticket for `a` expiring at `now + t`; a
second call for `a` before that expiry returns confirmed and clears the
ticket; a call for `a` at or after expiry, or for a different action `b`,
returns not-confirmed and re-arms the ticket for the requested action. -/
theorem request_confirm_handshake (s : AppState) (a b : String)
    (t t2 now now1 now2 : Nat)
    (h0 : ¬(s.pending_confirm = some a ∧ now < s.confirm_expires))
    (h1 : now1 < now + t) (h2 : now + t ≤ now2) (hb : b ≠ a) :
    (request_confirm s a t now).2 = false ∧
    (request_confirm s a t now).1.pending_confirm = some a ∧
    (request_confirm s a t now).1.confirm_expires = now + t ∧
    (request_confirm (request_confirm s a t now).1 a t2 now1).2 = true ∧
    (request_confirm (request_confirm s a t now).1 a t2 now1).1.pending_confirm = none ∧
    (request_confirm (request_confirm s a t now).1 a t2 now2).2 = false ∧
    (request_confirm (request_confirm s a t now).1 a t2 now2).1.pending_confirm = some a ∧
    (request_confirm (request_confirm s a t now).1 a t2 now2).1.confirm_expires = now2 + t2 ∧
    (request_confirm (request_confirm s a t now).1 b t2 now1).2 = false ∧
    (request_confirm (request_confirm s a t now).1 b t2 now1).1.pending_confirm = some b ∧
    (request_confirm (request_confirm s a t now).1 b t2 now1).1.confirm_expires = now1 + t2 := by
  have hs1 : request_confirm s a t now =
      ({ s with pending_confirm := some a, confirm_expires := now + t }, false) := by
    simp [request_confirm, h0]
  rw [hs1]
  refine ⟨rfl, rfl, rfl, ?_, ?_, ?_, ?_, ?_, ?_, ?_, ?_⟩ <;>
    simp [request_confirm, h1, h2, hb, Ne.symm hb, Nat.not_lt.mpr h2]

/-- Witness for C4: arm "reboot" at time 0 with window 3; confirm at time 1;
after expiry at time 3 a new request re-arms; a different action re-arms. -/
theorem request_confirm_handshake_witness :
    ¬((AppState.init 0).pending_confirm = some "reboot" ∧ 0 < (AppState.init 0).confirm_expires) ∧
    (request_confirm (request_confirm (AppState.init 0) "reboot" 3 0).1 "reboot" 3 1).2 = true :=
  ⟨by simp [AppState.init],
   (request_confirm_handshake (AppState.init 0) "reboot" "shutdown" 3 3 0 1 3
      (by simp [AppState.init]) (by omega) (by omega) (by decide)).2.2.2.1⟩

/-- Claim C6: every output-changing mutation — `add_alert`, `clear_alerts`,
`start_payload`, `end_payload`, `change_mode` (on a nonempty registry),
`set_mode_by_name` when the index changes, and the `backlight_on` and
`payload_status` setters — leaves `render_needed` true on return. -/
theorem mutations_set_render_needed (s : AppState) (now : Nat) (msg : String)
    (lvl : AlertLevel) (nm cmd name2 : String) (pid : Option Nat)
    (st : PayloadStatus) (delta : Int) (b : Bool) (i : Nat)
    (hmodes : s.modes ≠ [])
    (hfind : s.modes.findIdx? (fun m => pyUpper m.name = pyUpper name2) = some i)
    (hne : s.current_mode_index ≠ i) :
    (add_alert s now msg lvl).render_needed = true ∧
    (clear_alerts s).render_needed = true ∧
    (start_payload s nm cmd now pid).render_needed = true ∧
    (end_payload s st).render_needed = true ∧
    (change_mode s delta now).1.render_needed = true ∧
    (set_mode_by_name s name2).1.render_needed = true ∧
    (set_backlight_on s b).render_needed = true ∧
    (set_payload_status s st).render_needed = true := by
  refine ⟨rfl, rfl, rfl, rfl, ?_, ?_, rfl, rfl⟩
  · simp [change_mode, List.isEmpty_iff, hmodes]
  · simp [set_mode_by_name, hfind, hne]

/-- Concrete two-mode state used to instantiate mode-switching hypotheses. -/
def sampleTwoModes : AppState :=
  { AppState.init 0 with modes := [⟨"SYSTEM"⟩, ⟨"NMAP"⟩] }

/-- Witness for C6 at a concrete two-mode state, switching to "nmap". -/
theorem mutations_set_render_needed_witness :
    sampleTwoModes.modes ≠ [] ∧
    sampleTwoModes.modes.findIdx? (fun m => pyUpper m.name = pyUpper "nmap") = some 1 ∧
    sampleTwoModes.current_mode_index ≠ 1 ∧
    (set_mode_by_name sampleTwoModes "nmap").1.render_needed = true :=
  ⟨by simp [sampleTwoModes, AppState.init], by decide, by decide,
   (mutations_set_render_needed sampleTwoModes 0 "m" AlertLevel.info "n" "c" "nmap"
      none PayloadStatus.idle 1 true 1
      (by simp [sampleTwoModes, AppState.init]) (by decide) (by decide)).2.2.2.2.2.1⟩

/-- Adding the modulus on the left of `emod` changes nothing. -/
theorem emod_add_self (i n : Int) : (i + n).emod n = i.emod n := by
  show (i + n) % n = i % n
  have e : i + n = i + n * 1 := by ring
  rw [e, Int.add_mul_emod_self_left]

/-- `-1` reduced modulo a positive modulus is `n - 1`. -/
theorem neg_one_emod (n : Int) (h : 0 < n) : (-1 : Int).emod n = n - 1 := by
  show (-1 : Int) % n = n - 1
  have e : (-1 : Int) = (n - 1) + n * (-1) := by ring
  rw [e, Int.add_mul_emod_self_left]
  exact Int.emod_eq_of_lt (by omega) (by omega)

/-- Stepping up then down by one modulo `n` is the identity on `[0, n)`. -/
theorem up_down_emod (i n : Int) (h0 : 0 ≤ i) (hn : i < n) :
    ((i + 1).emod n + -1).emod n = i := by
  show ((i + 1) % n + -1) % n = i
  rcases lt_or_eq_of_le (Int.add_one_le_iff.mpr hn) with hlt | heq
  · rw [Int.emod_eq_of_lt (by omega) hlt]
    have e : i + 1 + -1 = i := by ring
    rw [e, Int.emod_eq_of_lt h0 hn]
  · rw [heq, Int.emod_self]
    have e : (0 : Int) + -1 = -1 := by ring
    rw [e]
    have := neg_one_emod n (by omega)
    rw [show (-1 : Int).emod n = (-1 : Int) % n from rfl] at this
    omega

/-- A natural number below the modulus is its own representative. -/
theorem toNat_emod_cast (i n : Nat) (h : i < n) :
    (((i : Int)).emod (n : Int)).toNat = i := by
  show (((i : Int)) % (n : Int)).toNat = i
  rw [Int.emod_eq_of_lt (Int.ofNat_nonneg _) (by exact_mod_cast h)]
  simp

/-- On a nonempty registry `change_mode` commits the wrapped index, raises
the render flag and refreshes the activity timestamp. -/
theorem change_mode_state_eq (s : AppState) (delta : Int) (now : Nat)
    (h : s.modes ≠ []) :
    (change_mode s delta now).1 =
      { s with
        current_mode_index :=
          (((s.current_mode_index : Int) + delta).emod (s.modes.length : Int)).toNat
        render_needed := true
        last_activity := now } := by
  simp [change_mode, List.isEmpty_iff, h]

/-- Claim C7: on a nonempty registry, `change_mode(delta)` moves the index to
(old + delta) mod N; advancing by N is the identity on the index, and
advancing by 1 then retreating by 1 restores the index and the current
mode. -/
theorem change_mode_wraparound (s : AppState) (delta : Int) (now now2 : Nat)
    (hidx : s.current_mode_index < s.modes.length) :
    (change_mode s delta now).1.current_mode_index =
      (((s.current_mode_index : Int) + delta).emod (s.modes.length : Int)).toNat ∧
    (change_mode s (s.modes.length : Int) now).1.current_mode_index =
      s.current_mode_index ∧
    (change_mode (change_mode s 1 now).1 (-1) now2).1.current_mode_index =
      s.current_mode_index ∧
    get_current_mode (change_mode (change_mode s 1 now).1 (-1) now2).1 =
      get_current_mode s := by
  have hne : s.modes ≠ [] := by
    intro h
    rw [h] at hidx
    exact Nat.not_lt_zero _ hidx
  have hn : (0 : Int) < (s.modes.length : Int) := by
    have := Nat.lt_of_le_of_lt (Nat.zero_le _) hidx
    exact_mod_cast this
  have h1 := change_mode_state_eq s delta now hne
  have h2 := change_mode_state_eq s (s.modes.length : Int) now hne
  have h3 := change_mode_state_eq s 1 now hne
  have hne3 : (change_mode s 1 now).1.modes ≠ [] := by rw [h3]; exact hne
  have h4 := change_mode_state_eq (change_mode s 1 now).1 (-1) now2 hne3
  have hup : ((((s.current_mode_index : Int) + 1).emod (s.modes.length : Int)).toNat : Int) =
      ((s.current_mode_index : Int) + 1).emod (s.modes.length : Int) :=
    Int.toNat_of_nonneg (Int.emod_nonneg _ (by omega))
  have hdown : ((((s.current_mode_index : Int) + 1).emod (s.modes.length : Int)) + -1).emod
      (s.modes.length : Int) = (s.current_mode_index : Int) :=
    up_down_emod _ _ (Int.ofNat_nonneg _) (by exact_mod_cast hidx)
  have hidx4 : (change_mode (change_mode s 1 now).1 (-1) now2).1.current_mode_index =
      s.current_mode_index := by
    rw [h4, h3]
    simp only [hup, hdown]
    simp
  refine ⟨by rw [h1], ?_, hidx4, ?_⟩
  · rw [h2]
    simp only [emod_add_self]
    exact toNat_emod_cast _ _ hidx
  · have hmodes4 : (change_mode (change_mode s 1 now).1 (-1) now2).1.modes = s.modes := by
      rw [h4, h3]
    simp [get_current_mode, hmodes4, hidx4]

/-- Witness for C7 at a concrete two-mode state with index 0. -/
theorem change_mode_wraparound_witness :
    sampleTwoModes.current_mode_index < sampleTwoModes.modes.length ∧
    (change_mode (change_mode sampleTwoModes 1 3).1 (-1) 4).1.current_mode_index =
      sampleTwoModes.current_mode_index :=
  ⟨by decide, (change_mode_wraparound sampleTwoModes 1 3 4 (by decide)).2.2.1⟩

/-- A registry with two modes sharing one name, currently at index 1. -/
def sampleDupModes : AppState :=
  { AppState.init 0 with modes := [⟨"ALPHA"⟩, ⟨"ALPHA"⟩], current_mode_index := 1 }

/-- Counterexample to C10 as stated: the mode at the current index (1)
matches "alpha" case-insensitively, and `set_mode_by_name` returns True, yet
it is not a no-op — the loop finds the duplicate name at index 0 first, so
the index changes and both lifecycle hooks fire. -/
theorem set_mode_by_name_noop_counterexample :
    (sampleDupModes.modes.get? sampleDupModes.current_mode_index).map
      (fun m => pyUpper m.name) = some (pyUpper "alpha") ∧
    (set_mode_by_name sampleDupModes "alpha").2.2 = true ∧
    (set_mode_by_name sampleDupModes "alpha").1.current_mode_index ≠
      sampleDupModes.current_mode_index ∧
    (set_mode_by_name sampleDupModes "alpha").2.1 ≠ [] := by decide

/-- Claim C10 amended: when the *first* case-insensitive match of the name
in the registry sits at the current index, `set_mode_by_name` returns True
and changes nothing: same state (index, render flag) and no hooks. -/
theorem set_mode_by_name_noop (s : AppState) (name : String)
    (hfind : s.modes.findIdx? (fun m => pyUpper m.name = pyUpper name) =
      some s.current_mode_index) :
    set_mode_by_name s name = (s, [], true) := by
  simp [set_mode_by_name, hfind]

/-- Witness for the amended C10 at a concrete state. -/
theorem set_mode_by_name_noop_witness :
    sampleTwoModes.modes.findIdx? (fun m => pyUpper m.name = pyUpper "system") =
      some sampleTwoModes.current_mode_index ∧
    set_mode_by_name sampleTwoModes "system" = (sampleTwoModes, [], true) :=
  ⟨by decide, set_mode_by_name_noop sampleTwoModes "system" (by decide)⟩

/-- Counterexample to C9 as stated: an invalid mode name makes `main` print
the usage text but exit through `usage()`'s `sys.exit(0)` — exit code 0, not
nonzero. -/
theorem cli_invalid_mode_counterexample :
    (cliMain ["bogus"]).usagePrinted = true ∧ (cliMain ["bogus"]).code = 0 := by
  decide

/-- Claim C9 amended: the entry point returns 0 on graceful completion
(interactive run, action listing, numeric action); on an invalid mode name
it prints usage and exits 0; on a non-numeric action argument it exits 1
(without the usage text). -/
theorem cli_exit_behaviour (bad good act num : String) (rest : List String)
    (hbad1 : bad ≠ "-h") (hbad2 : bad ≠ "--help") (hbad3 : bad ≠ "help")
    (hbad : MODE_CLASSES.contains (pyLower bad) = false)
    (hgood1 : good ≠ "-h") (hgood2 : good ≠ "--help") (hgood3 : good ≠ "help")
    (hgood : MODE_CLASSES.contains (pyLower good) = true)
    (hact : isdigit act = false) (hnum : isdigit num = true) :
    cliMain [] = ⟨0, false⟩ ∧
    cliMain (bad :: rest) = ⟨0, true⟩ ∧
    cliMain [good] = ⟨0, false⟩ ∧
    cliMain (good :: act :: rest) = ⟨1, false⟩ ∧
    cliMain (good :: num :: rest) = ⟨0, false⟩ := by
  have hbad' : ¬ pyLower bad ∈ MODE_CLASSES := by simpa using hbad
  have hgood' : pyLower good ∈ MODE_CLASSES := by simpa using hgood
  refine ⟨rfl, ?_, ?_, ?_, ?_⟩ <;>
    simp [cliMain, hbad1, hbad2, hbad3, hbad', hgood1, hgood2, hgood3, hgood',
      hact, hnum]

/-- Witness for the amended C9 at concrete arguments. -/
theorem cli_exit_behaviour_witness :
    MODE_CLASSES.contains (pyLower "zzz") = false ∧
    MODE_CLASSES.contains (pyLower "NMAP") = true ∧
    cliMain ["NMAP", "go"] = ⟨1, false⟩ :=
  ⟨by decide, by decide,
   (cli_exit_behaviour "zzz" "NMAP" "go" "2" [] (by decide) (by decide) (by decide)
      (by decide) (by decide) (by decide) (by decide) (by decide) (by decide)
      (by decide)).2.2.2.1⟩

/-- Folding `dequeAppend` over a batch of appends keeps exactly the last
`cap` elements of the combined sequence. -/
theorem foldl_dequeAppend {α : Type} (cap : Nat) (ys : List α) :
    ∀ xs : List α, xs.length ≤ cap →
      ys.foldl (dequeAppend cap) xs = (xs ++ ys).drop ((xs ++ ys).length - cap) := by
  induction ys with
  | nil =>
    intro xs h
    simp [Nat.sub_eq_zero_of_le h]
  | cons a ys ih =>
    intro xs h
    have hlen : (dequeAppend cap xs a).length ≤ cap := by
      unfold dequeAppend
      simp
      omega
    rw [List.foldl_cons, ih (dequeAppend cap xs a) hlen]
    unfold dequeAppend
    rw [← List.drop_append_of_le_length (Nat.sub_le (xs ++ [a]).length cap),
      List.drop_drop]
    have e : xs ++ a :: ys = (xs ++ [a]) ++ ys := by simp
    rw [e]
    congr 1
    simp [List.length_drop]
    omega

/-- The alert log of `addAlerts` is the fold of `dequeAppend` over the batch
of freshly created alerts. -/
theorem addAlerts_alerts (now : Nat) (msgs : List (String × AlertLevel)) :
    ∀ s : AppState, (addAlerts s now msgs).alerts =
      (msgs.map (fun p => Alert.mk now p.1 p.2)).foldl
        (dequeAppend ALERT_MAX_COUNT) s.alerts := by
  induction msgs with
  | nil => intro s; rfl
  | cons p msgs ih =>
    intro s
    simp only [addAlerts, List.foldl_cons, List.map_cons]
    have h := ih (add_alert s now p.1 p.2)
    simp only [addAlerts] at h
    exact h

/-- Claim C5: starting from an empty log, adding more than the configured
capacity (ALERT_MAX_COUNT = 50) of alerts leaves exactly capacity-many, in
insertion order with the newest at the tail; exactly the oldest entries are
evicted, and `clear_alerts` empties the log. -/
theorem alert_bounding (s : AppState) (now : Nat)
    (msgs : List (String × AlertLevel)) (h0 : s.alerts = [])
    (hlen : ALERT_MAX_COUNT < msgs.length) :
    ALERT_MAX_COUNT = 50 ∧
    (addAlerts s now msgs).alerts.length = ALERT_MAX_COUNT ∧
    (addAlerts s now msgs).alerts =
      (msgs.drop (msgs.length - ALERT_MAX_COUNT)).map
        (fun p => Alert.mk now p.1 p.2) ∧
    (clear_alerts (addAlerts s now msgs)).alerts = [] := by
  have h1 := addAlerts_alerts now msgs s
  rw [h0] at h1
  rw [foldl_dequeAppend ALERT_MAX_COUNT _ [] (by simp)] at h1
  simp only [List.nil_append, List.length_map] at h1
  refine ⟨rfl, ?_, ?_, rfl⟩
  · rw [h1]
    simp
    omega
  · rw [h1, List.map_drop]

/-- Witness for C5: 51 alerts into a fresh state leave exactly 50. -/
theorem alert_bounding_witness :
    (AppState.init 0).alerts = [] ∧
    ALERT_MAX_COUNT < (List.replicate 51 ("m", AlertLevel.info)).length ∧
    (addAlerts (AppState.init 0) 0 (List.replicate 51 ("m", AlertLevel.info))).alerts.length =
      ALERT_MAX_COUNT :=
  ⟨rfl, by decide,
   (alert_bounding (AppState.init 0) 0 (List.replicate 51 ("m", AlertLevel.info))
      rfl (by decide)).2.1⟩

end KaliPiMax
